import Mathlib

/-!
Verification of the Session Registry & Command Dispatch layer of the
mcp-selenium (MCP Playwright) server, shallowly embedded from
`src/lib/server.js`.

The server keeps a module-level `state` record with three maps
(`browsers`, `contexts`, `pages`, keyed by session id) and an
`currentSession` pointer (a session id or `null`).  Each tool handler is an
async function that may read the state, invoke the Playwright driver, and
build a result envelope of text content blocks; the whole body is wrapped
in `try/catch`, the catch returning a one-block `Error ...:` envelope.

Embedding conventions:
* JS `Map` becomes an association list `List (String × _)`; `Map.get`,
  `Map.set`, `Map.delete` become `mapGet`, `mapSet`, `mapDelete`.
  `state.currentSession` is an `Option String` (`none` = `null`), and a
  lookup keyed by the pointer takes the `Option` (lookup at `null` misses).
* Playwright calls are external: each handler takes the outcome the driver
  would produce (`Except String _`, `.error` = thrown/rejected) as an extra
  argument, and records every driver operation it actually issues, in
  order, in the `ops` field of its result.  A browser handle carries
  `closeErr`, the outcome its later `close()` will produce.
* Async/await is sequential in this program (one tool call at a time), so
  handlers are plain state-passing functions.
-/

namespace MCPSelenium

/-- Model of one content block of an MCP tool response: every block built by
`server.js` is a text block. -/
structure ContentBlock where
  kind : String
  text : String
deriving Repr, DecidableEq

/-- Model of the result envelope: the `{ content: [...] }` object every tool
handler returns. -/
structure Envelope where
  content : List ContentBlock
deriving Repr, DecidableEq

/-- Model of `{ type: "text", text: s }`. -/
def textBlock (s : String) : ContentBlock :=
  { kind := "text", text := s }

/-- Model of a Playwright browser handle.  `closeErr = some msg` means a later
`browser.close()` rejects with `msg`; `none` means it resolves. -/
structure Browser where
  handle : Nat
  closeErr : Option String
deriving Repr, DecidableEq

/-- Model of the module-level `state` object of `server.js` (lines 18-23):
three session-keyed maps and the active-session pointer. -/
structure ServerState where
  browsers : List (String × Browser)
  contexts : List (String × Nat)
  pages : List (String × Nat)
  currentSession : Option String
deriving Repr, DecidableEq

/-- Model of `Map.get(k)` where `k` is `state.currentSession`: looking up the
`null` pointer misses (the maps only hold string keys). -/
def mapGet {α : Type} (m : List (String × α)) (k : Option String) : Option α :=
  match k with
  | none => none
  | some s => (m.find? (fun p => p.1 == s)).map (fun p => p.2)

/-- Model of `Map.set(k, v)`: replaces the entry if the key is present,
otherwise appends it. -/
def mapSet {α : Type} (m : List (String × α)) (k : String) (v : α) : List (String × α) :=
  if m.any (fun p => p.1 == k) then
    m.map (fun p => if p.1 == k then (k, v) else p)
  else
    m ++ [(k, v)]

/-- Model of `Map.delete(k)` keyed by the pointer: deleting at `null` removes
nothing. -/
def mapDelete {α : Type} (m : List (String × α)) (k : Option String) : List (String × α) :=
  match k with
  | none => m
  | some s => m.filter (fun p => !(p.1 == s))

/-- Key membership in a session map (`Map.has`). -/
def keyMem {α : Type} (m : List (String × α)) (k : String) : Bool :=
  m.any (fun p => p.1 == k)

/-- Model of the `getPage` helper (`server.js` lines 26-32): read the page for
the current pointer; a miss (pointer `null`, or dangling) throws
`"No active browser session"`. -/
def getPage (st : ServerState) : Except String Nat :=
  match mapGet st.pages st.currentSession with
  | none => Except.error "No active browser session"
  | some p => Except.ok p

/-- Model of JS template interpolation of a possibly-null string:
`${null}` prints `"null"`. -/
def jsToString : Option String → String
  | none => "null"
  | some s => s

/-- Truthiness of an optional JS string: `undefined` and `""` are falsy. -/
def strTruthy : Option String → Bool
  | none => false
  | some s => !(s == "")

/-- Model of the `viewport` sub-object of `browserOptionsSchema`. -/
structure Viewport where
  width : Option Int := none
  height : Option Int := none
deriving Repr, DecidableEq

/-- Model of the `options` object accepted by `start_browser`
(`browserOptionsSchema`, `server.js` lines 35-61): every field optional. -/
structure BrowserOptions where
  headless : Option Bool := none
  viewport : Option Viewport := none
  userAgent : Option String := none
  userDataDir : Option String := none
  channel : Option String := none
deriving Repr, DecidableEq

/-- Ways the caller can supply the `options` parameter of `start_browser`:
omitted, explicit `null`, or an object. -/
inductive OptionsInput where
  | omitted
  | null
  | obj (o : BrowserOptions)
deriving Repr, DecidableEq

/-- Model of the zod pipeline `.optional().nullable().default({})` on
`browserOptionsSchema`: an omitted value gets the default `{}`; `null`
passes through; an object passes through.  The handler sees `null` as
`none`. -/
def parseOptions : OptionsInput → Option BrowserOptions
  | OptionsInput.omitted => some {}
  | OptionsInput.null => none
  | OptionsInput.obj o => some o

/-- Model of the launch options object built by the `start_browser` handler
(`server.js` lines 88-103). -/
structure LaunchOptions where
  headless : Bool
  args : List String
  channel : Option String
deriving Repr, DecidableEq

/-- Launch-option computation of `start_browser`:
`headless: options?.headless ?? false`; a `--user-data-dir` arg is added when
`options?.userDataDir` is truthy; `channel` is set when `options?.channel` is
truthy. -/
def makeLaunchOptions (options : Option BrowserOptions) : LaunchOptions :=
  let base : LaunchOptions :=
    { headless := (options.bind (fun o => o.headless)).getD false
      args := []
      channel := none }
  let withArgs :=
    if strTruthy (options.bind (fun o => o.userDataDir)) then
      { base with
          args := ["--user-data-dir=" ++ (options.bind (fun o => o.userDataDir)).getD ""] }
    else base
  if strTruthy (options.bind (fun o => o.channel)) then
    { withArgs with channel := options.bind (fun o => o.channel) }
  else withArgs

/-- Model of the context options object built by `start_browser`
(`server.js` lines 119-125). -/
structure ContextOptions where
  viewport : Option Viewport := none
  userAgent : Option String := none
deriving Repr, DecidableEq

/-- Context-option computation of `start_browser`: `viewport` is copied when
present (an object is always truthy), `userAgent` when truthy. -/
def makeContextOptions (options : Option BrowserOptions) : ContextOptions :=
  let base : ContextOptions := {}
  let withVp :=
    match options.bind (fun o => o.viewport) with
    | some v => { base with viewport := some v }
    | none => base
  if strTruthy (options.bind (fun o => o.userAgent)) then
    { withVp with userAgent := options.bind (fun o => o.userAgent) }
  else withVp

/-- Model of the screenshot options object passed to `page.screenshot`
(`server.js` lines 518-522).  `format` models the `type` field:
`outputPath?.endsWith(".jpg") ? "jpeg" : "png"`. -/
structure ScreenshotOptions where
  path : Option String
  fullPage : Bool
  format : String
deriving Repr, DecidableEq

/-- Screenshot-option computation of `take_screenshot`. -/
def mkScreenshotOptions (outputPath : Option String) (fullPage : Bool) : ScreenshotOptions :=
  { path := outputPath
    fullPage := fullPage
    format :=
      match outputPath with
      | some p => if p.endsWith ".jpg" then "jpeg" else "png"
      | none => "png" }

/-- Driver operations the handlers can issue, recorded in order of issue. -/
inductive DriverOp where
  | launch (kind : String) (opts : LaunchOptions)
  | newContext (opts : ContextOptions)
  | newPage
  | goto (url : String) (waitUntil : String)
  | pageUrl
  | reload
  | waitForTimeout (ms : Int)
  | waitForSelector (selector : String) (timeout : Int)
  | click (selector : String) (timeout : Int)
  | rightClick (selector : String) (timeout : Int)
  | fill (selector : String) (text : String) (timeout : Int)
  | textContent (selector : String) (timeout : Int)
  | hoverOp (selector : String) (timeout : Int)
  | dragAndDrop (selector : String) (targetSelector : String) (timeout : Int)
  | dblclick (selector : String) (timeout : Int)
  | keyboardPress (key : String)
  | setInputFiles (selector : String) (filePath : String) (timeout : Int)
  | screenshot (opts : ScreenshotOptions)
  | evaluateStripScripts
  | browserClose (sessionId : String)
deriving Repr, DecidableEq

/-- Result of running one tool handler: the envelope it returns, the state it
leaves behind, and the driver operations it issued. -/
structure ToolResult where
  envelope : Envelope
  state : ServerState
  ops : List DriverOp
deriving Repr, DecidableEq

/-- Model of the `start_browser` handler (`server.js` lines 85-151).
`launch`, `newContext`, `newPage` are the outcomes the driver produces for
the corresponding awaited calls; `now` models `Date.now()`.  The generated
session id is `browser + "_" + now`; registration uses plain `Map.set` and
then sets the pointer. -/
def start_browser (st : ServerState) (browser : String) (options : Option BrowserOptions)
    (launch : Except String Browser) (newContext : Except String Nat)
    (newPage : Except String Nat) (now : Nat) : ToolResult :=
  let launchOptions := makeLaunchOptions options
  if browser == "chromium" || browser == "firefox" || browser == "webkit" then
    match launch with
    | Except.error e =>
      { envelope := ⟨[textBlock ("Error starting browser: " ++ e)]⟩
        state := st
        ops := [DriverOp.launch browser launchOptions] }
    | Except.ok browserInstance =>
      let contextOptions := makeContextOptions options
      match newContext with
      | Except.error e =>
        { envelope := ⟨[textBlock ("Error starting browser: " ++ e)]⟩
          state := st
          ops := [DriverOp.launch browser launchOptions, DriverOp.newContext contextOptions] }
      | Except.ok context =>
        match newPage with
        | Except.error e =>
          { envelope := ⟨[textBlock ("Error starting browser: " ++ e)]⟩
            state := st
            ops := [DriverOp.launch browser launchOptions, DriverOp.newContext contextOptions,
              DriverOp.newPage] }
        | Except.ok page =>
          let sessionId := browser ++ "_" ++ toString now
          { envelope := ⟨[textBlock ("Browser started with session_id: " ++ sessionId)]⟩
            state :=
              { browsers := mapSet st.browsers sessionId browserInstance
                contexts := mapSet st.contexts sessionId context
                pages := mapSet st.pages sessionId page
                currentSession := some sessionId }
            ops := [DriverOp.launch browser launchOptions, DriverOp.newContext contextOptions,
              DriverOp.newPage] }
  else
    { envelope := ⟨[textBlock ("Error starting browser: Unsupported browser: " ++ browser)]⟩
      state := st
      ops := [] }

/-- Model of the `navigate` handler (`server.js` lines 154-177). -/
def navigate (st : ServerState) (url : String) (waitUntil : String)
    (goto : Except String Unit) : ToolResult :=
  match getPage st with
  | Except.error e =>
    { envelope := ⟨[textBlock ("Error navigating: " ++ e)]⟩, state := st, ops := [] }
  | Except.ok _page =>
    match goto with
    | Except.error e =>
      { envelope := ⟨[textBlock ("Error navigating: " ++ e)]⟩
        state := st
        ops := [DriverOp.goto url waitUntil] }
    | Except.ok _ =>
      { envelope := ⟨[textBlock ("Navigated to " ++ url)]⟩
        state := st
        ops := [DriverOp.goto url waitUntil] }

/-- Model of the `get_current_url` handler (`server.js` lines 179-198). -/
def get_current_url (st : ServerState) (url : Except String String) : ToolResult :=
  match getPage st with
  | Except.error e =>
    { envelope := ⟨[textBlock ("Error getting current URL: " ++ e)]⟩, state := st, ops := [] }
  | Except.ok _page =>
    match url with
    | Except.error e =>
      { envelope := ⟨[textBlock ("Error getting current URL: " ++ e)]⟩
        state := st
        ops := [DriverOp.pageUrl] }
    | Except.ok currentUrl =>
      { envelope := ⟨[textBlock currentUrl]⟩, state := st, ops := [DriverOp.pageUrl] }

/-- Model of the `refresh_browser` handler (`server.js` lines 200-234): reload,
then `waitForTimeout(waitTime)` only when `waitTime > 0`. -/
def refresh_browser (st : ServerState) (waitTime : Int)
    (reload : Except String Unit) (wait : Except String Unit) : ToolResult :=
  match getPage st with
  | Except.error e =>
    { envelope := ⟨[textBlock ("Error refreshing page: " ++ e)]⟩, state := st, ops := [] }
  | Except.ok _page =>
    match reload with
    | Except.error e =>
      { envelope := ⟨[textBlock ("Error refreshing page: " ++ e)]⟩
        state := st
        ops := [DriverOp.reload] }
    | Except.ok _ =>
      if waitTime > 0 then
        match wait with
        | Except.error e =>
          { envelope := ⟨[textBlock ("Error refreshing page: " ++ e)]⟩
            state := st
            ops := [DriverOp.reload, DriverOp.waitForTimeout waitTime] }
        | Except.ok _ =>
          { envelope := ⟨[textBlock ("Page refreshed and waited " ++ toString waitTime
              ++ "ms for content to load")]⟩
            state := st
            ops := [DriverOp.reload, DriverOp.waitForTimeout waitTime] }
      else
        { envelope := ⟨[textBlock ("Page refreshed and waited " ++ toString waitTime
            ++ "ms for content to load")]⟩
          state := st
          ops := [DriverOp.reload] }

/-- Model of the `sleep` handler (`server.js` lines 236-263):
`waitForTimeout(ms)` only when `ms > 0`. -/
def sleep (st : ServerState) (ms : Int) (wait : Except String Unit) : ToolResult :=
  match getPage st with
  | Except.error e =>
    { envelope := ⟨[textBlock ("Error sleeping: " ++ e)]⟩, state := st, ops := [] }
  | Except.ok _page =>
    if ms > 0 then
      match wait with
      | Except.error e =>
        { envelope := ⟨[textBlock ("Error sleeping: " ++ e)]⟩
          state := st
          ops := [DriverOp.waitForTimeout ms] }
      | Except.ok _ =>
        { envelope := ⟨[textBlock ("Slept for " ++ toString ms ++ "ms")]⟩
          state := st
          ops := [DriverOp.waitForTimeout ms] }
    else
      { envelope := ⟨[textBlock ("Slept for " ++ toString ms ++ "ms")]⟩
        state := st
        ops := [] }

/-- Model of the `find_element` handler (`server.js` lines 266-287). -/
def find_element (st : ServerState) (selector : String) (timeout : Int)
    (wait : Except String Unit) : ToolResult :=
  match getPage st with
  | Except.error e =>
    { envelope := ⟨[textBlock ("Error finding element: " ++ e)]⟩, state := st, ops := [] }
  | Except.ok _page =>
    match wait with
    | Except.error e =>
      { envelope := ⟨[textBlock ("Error finding element: " ++ e)]⟩
        state := st
        ops := [DriverOp.waitForSelector selector timeout] }
    | Except.ok _ =>
      { envelope := ⟨[textBlock "Element found"]⟩
        state := st
        ops := [DriverOp.waitForSelector selector timeout] }

/-- Model of the `click_element` handler (`server.js` lines 289-310). -/
def click_element (st : ServerState) (selector : String) (timeout : Int)
    (click : Except String Unit) : ToolResult :=
  match getPage st with
  | Except.error e =>
    { envelope := ⟨[textBlock ("Error clicking element: " ++ e)]⟩, state := st, ops := [] }
  | Except.ok _page =>
    match click with
    | Except.error e =>
      { envelope := ⟨[textBlock ("Error clicking element: " ++ e)]⟩
        state := st
        ops := [DriverOp.click selector timeout] }
    | Except.ok _ =>
      { envelope := ⟨[textBlock "Element clicked"]⟩
        state := st
        ops := [DriverOp.click selector timeout] }

/-- Model of the `send_keys` handler (`server.js` lines 312-334). -/
def send_keys (st : ServerState) (selector : String) (text : String) (timeout : Int)
    (fill : Except String Unit) : ToolResult :=
  match getPage st with
  | Except.error e =>
    { envelope := ⟨[textBlock ("Error entering text: " ++ e)]⟩, state := st, ops := [] }
  | Except.ok _page =>
    match fill with
    | Except.error e =>
      { envelope := ⟨[textBlock ("Error entering text: " ++ e)]⟩
        state := st
        ops := [DriverOp.fill selector text timeout] }
    | Except.ok _ =>
      { envelope := ⟨[textBlock ("Text \"" ++ text ++ "\" entered into element")]⟩
        state := st
        ops := [DriverOp.fill selector text timeout] }

/-- Model of JS `text || ""`: `null` (and `""`) become `""`. -/
def jsOrEmpty : Option String → String
  | none => ""
  | some s => s

/-- Model of the `get_element_text` handler (`server.js` lines 336-357):
`page.textContent` resolves to a string or `null`; the handler returns
`text || ""`. -/
def get_element_text (st : ServerState) (selector : String) (timeout : Int)
    (tc : Except String (Option String)) : ToolResult :=
  match getPage st with
  | Except.error e =>
    { envelope := ⟨[textBlock ("Error getting element text: " ++ e)]⟩, state := st, ops := [] }
  | Except.ok _page =>
    match tc with
    | Except.error e =>
      { envelope := ⟨[textBlock ("Error getting element text: " ++ e)]⟩
        state := st
        ops := [DriverOp.textContent selector timeout] }
    | Except.ok text =>
      { envelope := ⟨[textBlock (jsOrEmpty text)]⟩
        state := st
        ops := [DriverOp.textContent selector timeout] }

/-- Model of the `hover` handler (`server.js` lines 359-380). -/
def hover (st : ServerState) (selector : String) (timeout : Int)
    (hov : Except String Unit) : ToolResult :=
  match getPage st with
  | Except.error e =>
    { envelope := ⟨[textBlock ("Error hovering over element: " ++ e)]⟩, state := st, ops := [] }
  | Except.ok _page =>
    match hov with
    | Except.error e =>
      { envelope := ⟨[textBlock ("Error hovering over element: " ++ e)]⟩
        state := st
        ops := [DriverOp.hoverOp selector timeout] }
    | Except.ok _ =>
      { envelope := ⟨[textBlock "Hovered over element"]⟩
        state := st
        ops := [DriverOp.hoverOp selector timeout] }

/-- Model of the `drag_and_drop` handler (`server.js` lines 382-409). -/
def drag_and_drop (st : ServerState) (selector : String) (targetSelector : String)
    (timeout : Int) (dnd : Except String Unit) : ToolResult :=
  match getPage st with
  | Except.error e =>
    { envelope := ⟨[textBlock ("Error performing drag and drop: " ++ e)]⟩
      state := st
      ops := [] }
  | Except.ok _page =>
    match dnd with
    | Except.error e =>
      { envelope := ⟨[textBlock ("Error performing drag and drop: " ++ e)]⟩
        state := st
        ops := [DriverOp.dragAndDrop selector targetSelector timeout] }
    | Except.ok _ =>
      { envelope := ⟨[textBlock "Drag and drop completed"]⟩
        state := st
        ops := [DriverOp.dragAndDrop selector targetSelector timeout] }

/-- Model of the `double_click` handler (`server.js` lines 411-432). -/
def double_click (st : ServerState) (selector : String) (timeout : Int)
    (dc : Except String Unit) : ToolResult :=
  match getPage st with
  | Except.error e =>
    { envelope := ⟨[textBlock ("Error performing double click: " ++ e)]⟩
      state := st
      ops := [] }
  | Except.ok _page =>
    match dc with
    | Except.error e =>
      { envelope := ⟨[textBlock ("Error performing double click: " ++ e)]⟩
        state := st
        ops := [DriverOp.dblclick selector timeout] }
    | Except.ok _ =>
      { envelope := ⟨[textBlock "Double click performed"]⟩
        state := st
        ops := [DriverOp.dblclick selector timeout] }

/-- Model of the `right_click` handler (`server.js` lines 434-455):
`page.click` with `button: "right"`. -/
def right_click (st : ServerState) (selector : String) (timeout : Int)
    (rc : Except String Unit) : ToolResult :=
  match getPage st with
  | Except.error e =>
    { envelope := ⟨[textBlock ("Error performing right click: " ++ e)]⟩
      state := st
      ops := [] }
  | Except.ok _page =>
    match rc with
    | Except.error e =>
      { envelope := ⟨[textBlock ("Error performing right click: " ++ e)]⟩
        state := st
        ops := [DriverOp.rightClick selector timeout] }
    | Except.ok _ =>
      { envelope := ⟨[textBlock "Right click performed"]⟩
        state := st
        ops := [DriverOp.rightClick selector timeout] }

/-- Model of the `press_key` handler (`server.js` lines 457-476). -/
def press_key (st : ServerState) (key : String) (press : Except String Unit) : ToolResult :=
  match getPage st with
  | Except.error e =>
    { envelope := ⟨[textBlock ("Error pressing key: " ++ e)]⟩, state := st, ops := [] }
  | Except.ok _page =>
    match press with
    | Except.error e =>
      { envelope := ⟨[textBlock ("Error pressing key: " ++ e)]⟩
        state := st
        ops := [DriverOp.keyboardPress key] }
    | Except.ok _ =>
      { envelope := ⟨[textBlock ("Key '" ++ key ++ "' pressed")]⟩
        state := st
        ops := [DriverOp.keyboardPress key] }

/-- Model of the `upload_file` handler (`server.js` lines 478-498). -/
def upload_file (st : ServerState) (selector : String) (filePath : String) (timeout : Int)
    (sif : Except String Unit) : ToolResult :=
  match getPage st with
  | Except.error e =>
    { envelope := ⟨[textBlock ("Error uploading file: " ++ e)]⟩, state := st, ops := [] }
  | Except.ok _page =>
    match sif with
    | Except.error e =>
      { envelope := ⟨[textBlock ("Error uploading file: " ++ e)]⟩
        state := st
        ops := [DriverOp.setInputFiles selector filePath timeout] }
    | Except.ok _ =>
      { envelope := ⟨[textBlock "File upload initiated"]⟩
        state := st
        ops := [DriverOp.setInputFiles selector filePath timeout] }

/-- Base64 alphabet used by `Buffer.toString("base64")`. -/
def base64Chars : List Char :=
  "ABCDEFGHIJKLMNOPQRSTUVWXYZabcdefghijklmnopqrstuvwxyz0123456789+/".data

/-- Character of the base64 alphabet at an index below 64. -/
def base64CharAt (n : Nat) : Char :=
  (base64Chars.drop n).headD 'A'

/-- RFC 4648 base64 encoding of a byte list (`Buffer.toString("base64")`);
bytes are taken mod 256. -/
def toBase64 : List Nat → String
  | [] => ""
  | [a] =>
    let x := a % 256
    String.mk [base64CharAt (x / 4), base64CharAt (x % 4 * 16), '=', '=']
  | [a, b] =>
    let x := a % 256
    let y := b % 256
    String.mk [base64CharAt (x / 4), base64CharAt (x % 4 * 16 + y / 16),
      base64CharAt (y % 16 * 4), '=']
  | a :: b :: c :: rest =>
    let x := a % 256
    let y := b % 256
    let z := c % 256
    String.mk [base64CharAt (x / 4), base64CharAt (x % 4 * 16 + y / 16),
      base64CharAt (y % 16 * 4 + z / 64), base64CharAt (z % 64)] ++ toBase64 rest

/-- Model of the `take_screenshot` handler (`server.js` lines 500-546): one
`page.screenshot` call with path/fullPage/type; with an `outputPath` the
success envelope reports the path, otherwise it holds a header block and the
base64-encoded bytes. -/
def take_screenshot (st : ServerState) (outputPath : Option String) (fullPage : Bool)
    (shot : Except String (List Nat)) : ToolResult :=
  match getPage st with
  | Except.error e =>
    { envelope := ⟨[textBlock ("Error taking screenshot: " ++ e)]⟩, state := st, ops := [] }
  | Except.ok _page =>
    let opts := mkScreenshotOptions outputPath fullPage
    match shot with
    | Except.error e =>
      { envelope := ⟨[textBlock ("Error taking screenshot: " ++ e)]⟩
        state := st
        ops := [DriverOp.screenshot opts] }
    | Except.ok screenshotBytes =>
      match outputPath with
      | some p =>
        { envelope := ⟨[textBlock ("Screenshot saved to " ++ p)]⟩
          state := st
          ops := [DriverOp.screenshot opts] }
      | none =>
        { envelope := ⟨[textBlock "Screenshot captured as base64:",
            textBlock (toBase64 screenshotBytes)]⟩
          state := st
          ops := [DriverOp.screenshot opts] }

/-- Model of the `get_page_source` handler (`server.js` lines 548-585):
optional delay, then a `page.evaluate` of the script-stripping serializer. -/
def get_page_source (st : ServerState) (delay : Int)
    (wait : Except String Unit) (evalRes : Except String String) : ToolResult :=
  match getPage st with
  | Except.error e =>
    { envelope := ⟨[textBlock ("Error getting page source: " ++ e)]⟩, state := st, ops := [] }
  | Except.ok _page =>
    let delayOps := if delay > 0 then [DriverOp.waitForTimeout delay] else []
    if delay > 0 then
      match wait with
      | Except.error e =>
        { envelope := ⟨[textBlock ("Error getting page source: " ++ e)]⟩
          state := st
          ops := delayOps }
      | Except.ok _ =>
        match evalRes with
        | Except.error e =>
          { envelope := ⟨[textBlock ("Error getting page source: " ++ e)]⟩
            state := st
            ops := delayOps ++ [DriverOp.evaluateStripScripts] }
        | Except.ok bodySource =>
          { envelope := ⟨[textBlock bodySource]⟩
            state := st
            ops := delayOps ++ [DriverOp.evaluateStripScripts] }
    else
      match evalRes with
      | Except.error e =>
        { envelope := ⟨[textBlock ("Error getting page source: " ++ e)]⟩
          state := st
          ops := [DriverOp.evaluateStripScripts] }
      | Except.ok bodySource =>
        { envelope := ⟨[textBlock bodySource]⟩
          state := st
          ops := [DriverOp.evaluateStripScripts] }

/-- Final part of the `close_session` handler once `browser.close()` did not
throw (or no browser was found): delete the three registry entries for the
pointer, remember the pointer value, clear it, and report closure. -/
def closeFinish (st : ServerState) (ops : List DriverOp) : ToolResult :=
  let sessionId := st.currentSession
  { envelope := ⟨[textBlock ("Browser session " ++ jsToString sessionId ++ " closed")]⟩
    state :=
      { browsers := mapDelete st.browsers st.currentSession
        contexts := mapDelete st.contexts st.currentSession
        pages := mapDelete st.pages st.currentSession
        currentSession := none }
    ops := ops }

/-- Model of the `close_session` handler (`server.js` lines 587-615): look up
the browser of the current pointer; if present, `await browser.close()` (a
rejection is caught and reported, skipping the deletes); then delete the
registry entries, clear the pointer, and report `"Browser session X closed"`
(interpolating `null` when the pointer was empty). -/
def close_session (st : ServerState) : ToolResult :=
  match mapGet st.browsers st.currentSession with
  | some browser =>
    match browser.closeErr with
    | some e =>
      { envelope := ⟨[textBlock ("Error closing session: " ++ e)]⟩
        state := st
        ops := [DriverOp.browserClose (jsToString st.currentSession)] }
    | none => closeFinish st [DriverOp.browserClose (jsToString st.currentSession)]
  | none => closeFinish st []

/-- Fold of the cleanup loop (`server.js` lines 635-641): for every registered
session, in order, attempt `browser.close()`, logging a failure and
continuing.  Returns the attempted close operations and the session ids
whose close failed (logged). -/
def closeAllBrowsers : List (String × Browser) → List DriverOp × List String
  | [] => ([], [])
  | (sessionId, browser) :: rest =>
    let tail := closeAllBrowsers rest
    match browser.closeErr with
    | some _ => (DriverOp.browserClose sessionId :: tail.1, sessionId :: tail.2)
    | none => (DriverOp.browserClose sessionId :: tail.1, tail.2)

/-- Outcome of the `cleanup` signal handler. -/
structure CleanupResult where
  ops : List DriverOp
  logged : List String
  finalState : ServerState
  exitCode : Nat
deriving Repr, DecidableEq

/-- Model of `cleanup` (`server.js` lines 634-647), installed on
SIGTERM/SIGINT: best-effort close of every registered browser, then clear the
three maps and the pointer unconditionally, then `process.exit(0)`. -/
def cleanup (st : ServerState) : CleanupResult :=
  let closes := closeAllBrowsers st.browsers
  { ops := closes.1
    logged := closes.2
    finalState := { browsers := [], contexts := [], pages := [], currentSession := none }
    exitCode := 0 }

instance {ε α : Type} [DecidableEq ε] [DecidableEq α] : DecidableEq (Except ε α) := fun x y =>
  match x, y with
  | Except.error a, Except.error b =>
    if h : a = b then Decidable.isTrue (congrArg Except.error h)
    else Decidable.isFalse (fun hc => h (Except.error.inj hc))
  | Except.error _, Except.ok _ => Decidable.isFalse (fun hc => Except.noConfusion hc)
  | Except.ok _, Except.error _ => Decidable.isFalse (fun hc => Except.noConfusion hc)
  | Except.ok a, Except.ok b =>
    if h : a = b then Decidable.isTrue (congrArg Except.ok h)
    else Decidable.isFalse (fun hc => h (Except.ok.inj hc))

/-- One tool invocation: the tool's arguments together with the outcomes the
driver produces for the calls the handler may issue. -/
inductive ToolCall where
  | start_browser (browser : String) (options : Option BrowserOptions)
      (launch : Except String Browser) (newContext : Except String Nat)
      (newPage : Except String Nat) (now : Nat)
  | navigate (url : String) (waitUntil : String) (goto : Except String Unit)
  | get_current_url (url : Except String String)
  | refresh_browser (waitTime : Int) (reload : Except String Unit) (wait : Except String Unit)
  | sleep (ms : Int) (wait : Except String Unit)
  | find_element (selector : String) (timeout : Int) (wait : Except String Unit)
  | click_element (selector : String) (timeout : Int) (click : Except String Unit)
  | send_keys (selector : String) (text : String) (timeout : Int) (fill : Except String Unit)
  | get_element_text (selector : String) (timeout : Int) (tc : Except String (Option String))
  | hover (selector : String) (timeout : Int) (hov : Except String Unit)
  | drag_and_drop (selector : String) (targetSelector : String) (timeout : Int)
      (dnd : Except String Unit)
  | double_click (selector : String) (timeout : Int) (dc : Except String Unit)
  | right_click (selector : String) (timeout : Int) (rc : Except String Unit)
  | press_key (key : String) (press : Except String Unit)
  | upload_file (selector : String) (filePath : String) (timeout : Int)
      (sif : Except String Unit)
  | take_screenshot (outputPath : Option String) (fullPage : Bool)
      (shot : Except String (List Nat))
  | get_page_source (delay : Int) (wait : Except String Unit) (evalRes : Except String String)
  | close_session
deriving Repr, DecidableEq

/-- Dispatch of one tool call to its handler. -/
def runTool (st : ServerState) : ToolCall → ToolResult
  | ToolCall.start_browser b o l c p n => start_browser st b o l c p n
  | ToolCall.navigate u w g => navigate st u w g
  | ToolCall.get_current_url u => get_current_url st u
  | ToolCall.refresh_browser w r wt => refresh_browser st w r wt
  | ToolCall.sleep m w => sleep st m w
  | ToolCall.find_element s t w => find_element st s t w
  | ToolCall.click_element s t c => click_element st s t c
  | ToolCall.send_keys s x t f => send_keys st s x t f
  | ToolCall.get_element_text s t r => get_element_text st s t r
  | ToolCall.hover s t h => hover st s t h
  | ToolCall.drag_and_drop s ts t d => drag_and_drop st s ts t d
  | ToolCall.double_click s t d => double_click st s t d
  | ToolCall.right_click s t r => right_click st s t r
  | ToolCall.press_key k p => press_key st k p
  | ToolCall.upload_file s f t u => upload_file st s f t u
  | ToolCall.take_screenshot o f sh => take_screenshot st o f sh
  | ToolCall.get_page_source d w e => get_page_source st d w e
  | ToolCall.close_session => close_session st

/-- Tools that resolve the active page through `getPage` (all but
`start_browser` and `close_session`). -/
def requiresPage : ToolCall → Bool
  | ToolCall.start_browser .. => false
  | ToolCall.close_session => false
  | _ => true

/-- Error-message label of each tool's catch block. -/
def errLabel : ToolCall → String
  | ToolCall.start_browser .. => "Error starting browser: "
  | ToolCall.navigate .. => "Error navigating: "
  | ToolCall.get_current_url .. => "Error getting current URL: "
  | ToolCall.refresh_browser .. => "Error refreshing page: "
  | ToolCall.sleep .. => "Error sleeping: "
  | ToolCall.find_element .. => "Error finding element: "
  | ToolCall.click_element .. => "Error clicking element: "
  | ToolCall.send_keys .. => "Error entering text: "
  | ToolCall.get_element_text .. => "Error getting element text: "
  | ToolCall.hover .. => "Error hovering over element: "
  | ToolCall.drag_and_drop .. => "Error performing drag and drop: "
  | ToolCall.double_click .. => "Error performing double click: "
  | ToolCall.right_click .. => "Error performing right click: "
  | ToolCall.press_key .. => "Error pressing key: "
  | ToolCall.upload_file .. => "Error uploading file: "
  | ToolCall.take_screenshot .. => "Error taking screenshot: "
  | ToolCall.get_page_source .. => "Error getting page source: "
  | ToolCall.close_session => "Error closing session: "

/-- One externally visible event: a tool call, or a termination signal
(SIGINT/SIGTERM), which runs `cleanup`. -/
inductive Step where
  | call (c : ToolCall)
  | signal
deriving Repr, DecidableEq

/-- State transition of one step. -/
def nextState (st : ServerState) : Step → ServerState
  | Step.call c => (runTool st c).state
  | Step.signal => (cleanup st).finalState

/-- Process start state (`server.js` lines 18-23): empty maps, empty
pointer. -/
def initialState : ServerState :=
  { browsers := [], contexts := [], pages := [], currentSession := none }

/-- States reachable from process start by tool calls and signals. -/
inductive Reachable : ServerState → Prop where
  | init : Reachable initialState
  | next {st : ServerState} (s : Step) : Reachable st → Reachable (nextState st s)

/-- Check that `pat` is a leading segment of `s` (character lists). -/
def listLeads : List Char → List Char → Bool
  | [], _ => true
  | _ :: _, [] => false
  | p :: ps, c :: cs => p == c && listLeads ps cs

/-- Substring test on character lists. -/
def listHasSub : List Char → List Char → Bool
  | [], pat => pat.isEmpty
  | c :: t, pat => listLeads pat (c :: t) || listHasSub t pat

/-- Substring test on strings. -/
def strHasSub (s pat : String) : Bool :=
  listHasSub s.data pat.data

/-- Leading-segment test on strings. -/
def strStarts (s pat : String) : Bool :=
  listLeads pat.data s.data

/-- Concatenated text of all blocks of an envelope. -/
def envText (e : Envelope) : String :=
  String.join (e.content.map (fun b => b.text))

/-- Failure envelopes of this server: exactly one block whose text starts with
`"Error"`. -/
def isErrorEnvelope (e : Envelope) : Bool :=
  match e.content with
  | [b] => strStarts b.text "Error"
  | _ => false

/-- Lemma: with an empty pointer, `getPage` throws the no-active-session
error. -/
lemma getPage_none (st : ServerState) (h : st.currentSession = none) :
    getPage st = Except.error "No active browser session" := by
  unfold getPage mapGet
  rw [h]

/-- Lemma: `navigate` never mutates the state. -/
lemma navigate_state (st : ServerState) (u w : String) (g : Except String Unit) :
    (navigate st u w g).state = st := by
  unfold navigate
  repeat' split
  all_goals rfl

/-- Lemma: `get_current_url` never mutates the state. -/
lemma get_current_url_state (st : ServerState) (u : Except String String) :
    (get_current_url st u).state = st := by
  unfold get_current_url
  repeat' split
  all_goals rfl

/-- Lemma: `refresh_browser` never mutates the state. -/
lemma refresh_browser_state (st : ServerState) (w : Int) (r wt : Except String Unit) :
    (refresh_browser st w r wt).state = st := by
  unfold refresh_browser
  repeat' split
  all_goals rfl

/-- Lemma: `sleep` never mutates the state. -/
lemma sleep_state (st : ServerState) (ms : Int) (w : Except String Unit) :
    (sleep st ms w).state = st := by
  unfold sleep
  repeat' split
  all_goals rfl

/-- Lemma: `find_element` never mutates the state. -/
lemma find_element_state (st : ServerState) (s : String) (t : Int) (w : Except String Unit) :
    (find_element st s t w).state = st := by
  unfold find_element
  repeat' split
  all_goals rfl

/-- Lemma: `click_element` never mutates the state. -/
lemma click_element_state (st : ServerState) (s : String) (t : Int) (c : Except String Unit) :
    (click_element st s t c).state = st := by
  unfold click_element
  repeat' split
  all_goals rfl

/-- Lemma: `send_keys` never mutates the state. -/
lemma send_keys_state (st : ServerState) (s x : String) (t : Int) (f : Except String Unit) :
    (send_keys st s x t f).state = st := by
  unfold send_keys
  repeat' split
  all_goals rfl

/-- Lemma: `get_element_text` never mutates the state. -/
lemma get_element_text_state (st : ServerState) (s : String) (t : Int)
    (r : Except String (Option String)) :
    (get_element_text st s t r).state = st := by
  unfold get_element_text
  repeat' split
  all_goals rfl

/-- Lemma: `hover` never mutates the state. -/
lemma hover_state (st : ServerState) (s : String) (t : Int) (h : Except String Unit) :
    (hover st s t h).state = st := by
  unfold hover
  repeat' split
  all_goals rfl

/-- Lemma: `drag_and_drop` never mutates the state. -/
lemma drag_and_drop_state (st : ServerState) (s ts : String) (t : Int)
    (d : Except String Unit) :
    (drag_and_drop st s ts t d).state = st := by
  unfold drag_and_drop
  repeat' split
  all_goals rfl

/-- Lemma: `double_click` never mutates the state. -/
lemma double_click_state (st : ServerState) (s : String) (t : Int) (d : Except String Unit) :
    (double_click st s t d).state = st := by
  unfold double_click
  repeat' split
  all_goals rfl

/-- Lemma: `right_click` never mutates the state. -/
lemma right_click_state (st : ServerState) (s : String) (t : Int) (r : Except String Unit) :
    (right_click st s t r).state = st := by
  unfold right_click
  repeat' split
  all_goals rfl

/-- Lemma: `press_key` never mutates the state. -/
lemma press_key_state (st : ServerState) (k : String) (p : Except String Unit) :
    (press_key st k p).state = st := by
  unfold press_key
  repeat' split
  all_goals rfl

/-- Lemma: `upload_file` never mutates the state. -/
lemma upload_file_state (st : ServerState) (s f : String) (t : Int)
    (u : Except String Unit) :
    (upload_file st s f t u).state = st := by
  unfold upload_file
  repeat' split
  all_goals rfl

/-- Lemma: `take_screenshot` never mutates the state. -/
lemma take_screenshot_state (st : ServerState) (o : Option String) (f : Bool)
    (sh : Except String (List Nat)) :
    (take_screenshot st o f sh).state = st := by
  unfold take_screenshot
  repeat' split
  all_goals rfl

/-- Lemma: `get_page_source` never mutates the state. -/
lemma get_page_source_state (st : ServerState) (d : Int)
    (w : Except String Unit) (e : Except String String) :
    (get_page_source st d w e).state = st := by
  unfold get_page_source
  repeat' split
  all_goals rfl

/-- Lemma: no tool that resolves the active page ever mutates the state. -/
lemma runTool_page_state (st : ServerState) (c : ToolCall) (h : requiresPage c = true) :
    (runTool st c).state = st := by
  cases c with
  | start_browser b o l ctx p n => simp [requiresPage] at h
  | close_session => simp [requiresPage] at h
  | navigate u w g => exact navigate_state st u w g
  | get_current_url u => exact get_current_url_state st u
  | refresh_browser w r wt => exact refresh_browser_state st w r wt
  | sleep m w => exact sleep_state st m w
  | find_element s t w => exact find_element_state st s t w
  | click_element s t cl => exact click_element_state st s t cl
  | send_keys s x t f => exact send_keys_state st s x t f
  | get_element_text s t r => exact get_element_text_state st s t r
  | hover s t hv => exact hover_state st s t hv
  | drag_and_drop s ts t d => exact drag_and_drop_state st s ts t d
  | double_click s t d => exact double_click_state st s t d
  | right_click s t r => exact right_click_state st s t r
  | press_key k p => exact press_key_state st k p
  | upload_file s f t u => exact upload_file_state st s f t u
  | take_screenshot o f sh => exact take_screenshot_state st o f sh
  | get_page_source d w e => exact get_page_source_state st d w e

/-- Lemma: overwriting an existing key leaves the new pair findable. -/
lemma find_map_overwrite {α : Type} (m : List (String × α)) (k : String) (v : α)
    (h : m.any (fun p => p.1 == k) = true) :
    (m.map (fun p => if p.1 == k then (k, v) else p)).find? (fun p => p.1 == k)
      = some (k, v) := by
  induction m with
  | nil => simp at h
  | cons p t ih =>
    by_cases hp : (p.1 == k) = true
    · simp [List.find?, hp]
    · simp only [List.any_cons, Bool.or_eq_true] at h
      rcases h with h | h
      · exact absurd h hp
      · simp only [List.map_cons, List.find?, hp, if_false, Bool.false_eq_true]
        exact ih h

/-- Lemma: appending a new pair to a list without the key makes it findable. -/
lemma find_append_single {α : Type} (m : List (String × α)) (k : String) (v : α)
    (h : m.any (fun p => p.1 == k) = false) :
    (m ++ [(k, v)]).find? (fun p => p.1 == k) = some (k, v) := by
  induction m with
  | nil => simp [List.find?]
  | cons p t ih =>
    simp only [List.any_cons, Bool.or_eq_false_iff] at h
    simp only [List.cons_append, List.find?, h.1]
    exact ih h.2

/-- Lemma: after `mapSet m k v`, looking for key `k` finds `(k, v)`. -/
lemma find_mapSet {α : Type} (m : List (String × α)) (k : String) (v : α) :
    (mapSet m k v).find? (fun p => p.1 == k) = some (k, v) := by
  unfold mapSet
  by_cases h : m.any (fun p => p.1 == k) = true
  · rw [if_pos h]
    exact find_map_overwrite m k v h
  · rw [if_neg h]
    exact find_append_single m k v (Bool.not_eq_true _ ▸ Bool.of_not_eq_true h)

/-- Lemma: `mapGet` after `mapSet` at the same key yields the new value. -/
lemma mapGet_mapSet {α : Type} (m : List (String × α)) (k : String) (v : α) :
    mapGet (mapSet m k v) (some k) = some v := by
  simp [mapGet, find_mapSet]

/-- Lemma: after `mapSet m k v`, the key `k` is present. -/
lemma keyMem_mapSet {α : Type} (m : List (String × α)) (k : String) (v : α) :
    keyMem (mapSet m k v) k = true := by
  unfold keyMem
  rw [List.any_eq_true]
  exact ⟨(k, v), List.mem_of_find?_eq_some (find_mapSet m k v), by simp⟩

/-- Lemma: the cleanup fold attempts a close for every registered session, in
registry order, and logs exactly the sessions whose close failed. -/
lemma closeAllBrowsers_spec (l : List (String × Browser)) :
    (closeAllBrowsers l).1 = l.map (fun p => DriverOp.browserClose p.1) ∧
    (closeAllBrowsers l).2 = (l.filter (fun p => p.2.closeErr.isSome)).map (fun p => p.1) := by
  induction l with
  | nil => exact ⟨rfl, rfl⟩
  | cons p t ih =>
    cases hc : p.2.closeErr with
    | none =>
      constructor
      · simp only [closeAllBrowsers, hc, List.map_cons]
        exact congrArg _ ih.1
      · simp only [closeAllBrowsers, hc, List.filter_cons, Option.isSome_none]
        simpa using ih.2
    | some e =>
      constructor
      · simp only [closeAllBrowsers, hc, List.map_cons]
        exact congrArg _ ih.1
      · simp only [closeAllBrowsers, hc, List.filter_cons, Option.isSome_some]
        simp only [if_true]
        simpa using ih.2

/-- Demo browser handle whose `close()` succeeds. -/
def demoBrowser : Browser :=
  { handle := 0, closeErr := none }

/-- Demo state with one registered session `chromium_1`, active. -/
def stActive : ServerState :=
  { browsers := [("chromium_1", demoBrowser)]
    contexts := [("chromium_1", 0)]
    pages := [("chromium_1", 0)]
    currentSession := some "chromium_1" }

/-- Demo `start_browser` call with successful driver outcomes. -/
def demoStartCall : ToolCall :=
  ToolCall.start_browser "chromium" none (Except.ok demoBrowser) (Except.ok 0) (Except.ok 0) 1

/-- Lemma: the key of a deleted entry is absent afterwards. -/
lemma keyMem_mapDelete {α : Type} (m : List (String × α)) (k : String) :
    keyMem (mapDelete m (some k)) k = false := by
  unfold keyMem mapDelete
  rw [List.any_eq_false]
  intro x hx
  rw [List.mem_filter] at hx
  simpa using hx.2

/-- Claim C1: for every tool call that requires an active page, if the active
session pointer is empty then the handler returns the one-block failure
envelope carrying the `No active browser session` message, issues no driver
operation, and leaves the session registry untouched. -/
theorem C1_noActiveSession_uniform (st : ServerState) (c : ToolCall)
    (hr : requiresPage c = true) (hp : st.currentSession = none) :
    runTool st c =
      { envelope := ⟨[textBlock (errLabel c ++ "No active browser session")]⟩
        state := st
        ops := [] } := by
  have hg := getPage_none st hp
  cases c with
  | start_browser b o l ctx p n => simp [requiresPage] at hr
  | close_session => simp [requiresPage] at hr
  | navigate u w g => simp [runTool, navigate, hg, errLabel]
  | get_current_url u => simp [runTool, get_current_url, hg, errLabel]
  | refresh_browser w r wt => simp [runTool, refresh_browser, hg, errLabel]
  | sleep m w => simp [runTool, sleep, hg, errLabel]
  | find_element s t w => simp [runTool, find_element, hg, errLabel]
  | click_element s t cl => simp [runTool, click_element, hg, errLabel]
  | send_keys s x t f => simp [runTool, send_keys, hg, errLabel]
  | get_element_text s t r => simp [runTool, get_element_text, hg, errLabel]
  | hover s t hv => simp [runTool, hover, hg, errLabel]
  | drag_and_drop s ts t d => simp [runTool, drag_and_drop, hg, errLabel]
  | double_click s t d => simp [runTool, double_click, hg, errLabel]
  | right_click s t r => simp [runTool, right_click, hg, errLabel]
  | press_key k p => simp [runTool, press_key, hg, errLabel]
  | upload_file s f t u => simp [runTool, upload_file, hg, errLabel]
  | take_screenshot o f sh => simp [runTool, take_screenshot, hg, errLabel]
  | get_page_source d w e => simp [runTool, get_page_source, hg, errLabel]

/-- Witness for C1: `click_element` against the empty initial state. -/
theorem C1_witness :
    runTool initialState (ToolCall.click_element "#btn" 10000 (Except.ok ())) =
      { envelope := ⟨[textBlock ("Error clicking element: " ++ "No active browser session")]⟩
        state := initialState
        ops := [] } :=
  C1_noActiveSession_uniform initialState
    (ToolCall.click_element "#btn" 10000 (Except.ok ())) rfl rfl

/-- Pointer-validity invariant of §3: if the pointer holds an id, that id is a
key of all three registry maps. -/
def pointerValid (st : ServerState) : Prop :=
  ∀ sid, st.currentSession = some sid →
    keyMem st.browsers sid = true ∧ keyMem st.contexts sid = true ∧ keyMem st.pages sid = true

/-- Lemma: every tool handler preserves pointer validity. -/
lemma pointerValid_runTool (st : ServerState) (c : ToolCall) (h : pointerValid st) :
    pointerValid (runTool st c).state := by
  by_cases hr : requiresPage c = true
  · rw [runTool_page_state st c hr]
    exact h
  · cases c with
    | start_browser b o l ctx p n =>
      show pointerValid (start_browser st b o l ctx p n).state
      unfold start_browser
      repeat' split
      · exact h
      · exact h
      · exact h
      · intro sid hsid
        simp only [Option.some.injEq] at hsid
        subst hsid
        exact ⟨keyMem_mapSet _ _ _, keyMem_mapSet _ _ _, keyMem_mapSet _ _ _⟩
      · exact h
    | close_session =>
      show pointerValid (close_session st).state
      unfold close_session closeFinish
      repeat' split
      · exact h
      · intro sid hsid
        exact Option.noConfusion hsid
      · intro sid hsid
        exact Option.noConfusion hsid
    | navigate u w g => exact absurd rfl hr
    | get_current_url u => exact absurd rfl hr
    | refresh_browser w r wt => exact absurd rfl hr
    | sleep m w => exact absurd rfl hr
    | find_element s t w => exact absurd rfl hr
    | click_element s t cl => exact absurd rfl hr
    | send_keys s x t f => exact absurd rfl hr
    | get_element_text s t r => exact absurd rfl hr
    | hover s t hv => exact absurd rfl hr
    | drag_and_drop s ts t d => exact absurd rfl hr
    | double_click s t d => exact absurd rfl hr
    | right_click s t r => exact absurd rfl hr
    | press_key k p => exact absurd rfl hr
    | upload_file s f t u => exact absurd rfl hr
    | take_screenshot o f sh => exact absurd rfl hr
    | get_page_source d w e => exact absurd rfl hr

/-- Claim C4: in every state reachable by tool calls and the shutdown cleanup,
the active session pointer never holds a dangling id: whatever it holds is a
key of all three registry maps. -/
theorem C4_pointer_validity (st : ServerState) (h : Reachable st) : pointerValid st := by
  induction h with
  | init =>
    intro sid hsid
    exact Option.noConfusion hsid
  | next s _ ih =>
    cases s with
    | call c => exact pointerValid_runTool _ c ih
    | signal =>
      intro sid hsid
      exact Option.noConfusion hsid

/-- Witness for C4: the state reached by one successful `start_browser`. -/
theorem C4_witness : pointerValid (nextState initialState (Step.call demoStartCall)) :=
  C4_pointer_validity _ (Reachable.next (Step.call demoStartCall) Reachable.init)

/-- Formalization of the part of C2 the code falsifies: any `close_session`
call made with the pointer empty reports a NoActiveSession-flavored
message. -/
def closeReportsNoActiveSessionWhenEmpty : Prop :=
  ∀ st : ServerState, st.currentSession = none →
    strHasSub (envText (close_session st).envelope) "No active browser session" = true

/-- Counterexample for C2: with the pointer empty, `close_session` reports
`"Browser session null closed"`, which carries no NoActiveSession message. -/
theorem C2_counterexample : ¬ closeReportsNoActiveSessionWhenEmpty := by
  intro h
  have h0 := h initialState rfl
  revert h0
  decide

/-- Claim C2 (amended): the first `close_session` against an active session
whose browser closes cleanly reports closure, closes the browser, removes the
registry entry and clears the pointer; a second consecutive call (pointer
empty) does not report NoActiveSession but succeeds idempotently, reporting
`"Browser session null closed"` and leaving the state unchanged with no
driver call. -/
theorem C2_close_session_idempotent (st : ServerState) (sid : String) (b : Browser)
    (hcur : st.currentSession = some sid)
    (hb : mapGet st.browsers st.currentSession = some b)
    (hclose : b.closeErr = none) :
    (close_session st).envelope = ⟨[textBlock ("Browser session " ++ sid ++ " closed")]⟩ ∧
    (close_session st).ops = [DriverOp.browserClose sid] ∧
    (close_session st).state.currentSession = none ∧
    keyMem (close_session st).state.browsers sid = false ∧
    (∀ st2 : ServerState, st2.currentSession = none →
      (close_session st2).envelope = ⟨[textBlock "Browser session null closed"]⟩ ∧
      (close_session st2).state = st2 ∧
      (close_session st2).ops = []) := by
  have hmain : close_session st =
      closeFinish st [DriverOp.browserClose (jsToString st.currentSession)] := by
    simp only [close_session, hb, hclose]
  refine ⟨?_, ?_, ?_, ?_, ?_⟩
  · rw [hmain]
    unfold closeFinish
    rw [hcur]
    rfl
  · rw [hmain]
    unfold closeFinish
    rw [hcur]
    rfl
  · rw [hmain]
    rfl
  · rw [hmain]
    show keyMem (mapDelete st.browsers st.currentSession) sid = false
    rw [hcur]
    exact keyMem_mapDelete st.browsers sid
  · intro st2 h2
    obtain ⟨b2, c2, p2, cur2⟩ := st2
    simp only at h2
    subst h2
    exact ⟨rfl, rfl, rfl⟩

/-- Witness for C2 at the demo active state. -/
theorem C2_witness :
    (close_session stActive).envelope =
      ⟨[textBlock ("Browser session " ++ "chromium_1" ++ " closed")]⟩ ∧
    (close_session stActive).ops = [DriverOp.browserClose "chromium_1"] ∧
    (close_session stActive).state.currentSession = none ∧
    keyMem (close_session stActive).state.browsers "chromium_1" = false ∧
    (∀ st2 : ServerState, st2.currentSession = none →
      (close_session st2).envelope = ⟨[textBlock "Browser session null closed"]⟩ ∧
      (close_session st2).state = st2 ∧
      (close_session st2).ops = []) :=
  C2_close_session_idempotent stActive "chromium_1" demoBrowser rfl (by decide) rfl

/-- Formalization of the C3 claim: every tool response envelope, success or
failure, has exactly one content block. -/
def everyToolEnvelopeSingleBlock : Prop :=
  ∀ (st : ServerState) (c : ToolCall), (runTool st c).envelope.content.length = 1

/-- Counterexample for C3: a successful `take_screenshot` without `outputPath`
returns an envelope with two content blocks. -/
theorem C3_counterexample : ¬ everyToolEnvelopeSingleBlock := by
  intro h
  have h0 := h stActive (ToolCall.take_screenshot none false (Except.ok [1, 2, 3]))
  revert h0
  decide

/-- Discriminator of the one case producing two blocks: a successful
`take_screenshot` with no `outputPath` against a resolvable page. -/
def isBase64ScreenshotSuccess (st : ServerState) : ToolCall → Bool
  | ToolCall.take_screenshot none _ (Except.ok _) =>
    match getPage st with
    | Except.ok _ => true
    | Except.error _ => false
  | _ => false

/-- Whether an `Except`-modelled driver outcome is a throw/rejection. -/
def exErr {α : Type} : Except String α → Bool
  | Except.error _ => true
  | Except.ok _ => false

/-- Whether the handler of a tool call takes its catch branch: `getPage`
threw, or one of the driver calls the handler reaches threw (driver outcomes
behind an untaken `ms > 0`-style guard are not reached). -/
def toolFailed (st : ServerState) : ToolCall → Bool
  | ToolCall.start_browser b _ l ctx p _ =>
    if b == "chromium" || b == "firefox" || b == "webkit" then
      exErr l || exErr ctx || exErr p
    else true
  | ToolCall.navigate _ _ g => exErr (getPage st) || exErr g
  | ToolCall.get_current_url u => exErr (getPage st) || exErr u
  | ToolCall.refresh_browser w r wt =>
    exErr (getPage st) || exErr r || (decide (w > 0) && exErr wt)
  | ToolCall.sleep m w => exErr (getPage st) || (decide (m > 0) && exErr w)
  | ToolCall.find_element _ _ w => exErr (getPage st) || exErr w
  | ToolCall.click_element _ _ cl => exErr (getPage st) || exErr cl
  | ToolCall.send_keys _ _ _ f => exErr (getPage st) || exErr f
  | ToolCall.get_element_text _ _ r => exErr (getPage st) || exErr r
  | ToolCall.hover _ _ hv => exErr (getPage st) || exErr hv
  | ToolCall.drag_and_drop _ _ _ d => exErr (getPage st) || exErr d
  | ToolCall.double_click _ _ d => exErr (getPage st) || exErr d
  | ToolCall.right_click _ _ r => exErr (getPage st) || exErr r
  | ToolCall.press_key _ p => exErr (getPage st) || exErr p
  | ToolCall.upload_file _ _ _ u => exErr (getPage st) || exErr u
  | ToolCall.take_screenshot _ _ sh => exErr (getPage st) || exErr sh
  | ToolCall.get_page_source d w e =>
    exErr (getPage st) || (decide (d > 0) && exErr w) || exErr e
  | ToolCall.close_session =>
    match mapGet st.browsers st.currentSession with
    | some b => b.closeErr.isSome
    | none => false

/-- Claim C3 (amended): a failure response's envelope contains exactly one
text block of the form `"Error <doing X>: <underlying message>"`; a success
response's envelope contains exactly one text block, except a successful
`take_screenshot` without `outputPath`, whose success envelope contains
exactly two blocks: the header `"Screenshot captured as base64:"` and the
base64-encoded image bytes. -/
theorem C3_envelope_shape (st : ServerState) (c : ToolCall) :
    (toolFailed st c = true →
      ∃ m, (runTool st c).envelope = ⟨[textBlock (errLabel c ++ m)]⟩) ∧
    (toolFailed st c = false → isBase64ScreenshotSuccess st c = false →
      (runTool st c).envelope.content.length = 1) ∧
    (isBase64ScreenshotSuccess st c = true →
      toolFailed st c = false ∧
      ∃ bytes, (runTool st c).envelope =
        ⟨[textBlock "Screenshot captured as base64:", textBlock (toBase64 bytes)]⟩) := by
  cases c with
  | navigate u w g =>
    cases hg : getPage st with
    | error e =>
      refine ⟨fun _ => ⟨e, by simp [runTool, errLabel, navigate, hg]⟩, fun hf _ => ?_, fun hb => ?_⟩
      · simp [toolFailed, hg, exErr] at hf
      · simp [isBase64ScreenshotSuccess] at hb
    | ok pg =>
      cases hr : g with
      | error e =>
        refine ⟨fun _ => ⟨e, by simp [runTool, errLabel, navigate, hg, hr]⟩, fun hf _ => ?_, fun hb => ?_⟩
        · simp [toolFailed, hg, hr, exErr] at hf
        · simp [isBase64ScreenshotSuccess] at hb
      | ok v =>
        refine ⟨fun hf => ?_, fun _ _ => by simp [runTool, errLabel, navigate, hg, hr], fun hb => ?_⟩
        · simp [toolFailed, hg, hr, exErr] at hf
        · simp [isBase64ScreenshotSuccess] at hb
  | get_current_url u =>
    cases hg : getPage st with
    | error e =>
      refine ⟨fun _ => ⟨e, by simp [runTool, errLabel, get_current_url, hg]⟩, fun hf _ => ?_,
        fun hb => ?_⟩
      · simp [toolFailed, hg, exErr] at hf
      · simp [isBase64ScreenshotSuccess] at hb
    | ok pg =>
      cases hr : u with
      | error e =>
        refine ⟨fun _ => ⟨e, by simp [runTool, errLabel, get_current_url, hg, hr]⟩, fun hf _ => ?_,
          fun hb => ?_⟩
        · simp [toolFailed, hg, hr, exErr] at hf
        · simp [isBase64ScreenshotSuccess] at hb
      | ok v =>
        refine ⟨fun hf => ?_, fun _ _ => by simp [runTool, errLabel, get_current_url, hg, hr],
          fun hb => ?_⟩
        · simp [toolFailed, hg, hr, exErr] at hf
        · simp [isBase64ScreenshotSuccess] at hb
  | refresh_browser w r wt =>
    cases hg : getPage st with
    | error e =>
      refine ⟨fun _ => ⟨e, by simp [runTool, errLabel, refresh_browser, hg]⟩, fun hf _ => ?_,
        fun hb => ?_⟩
      · simp [toolFailed, hg, exErr] at hf
      · simp [isBase64ScreenshotSuccess] at hb
    | ok pg =>
      cases hr : r with
      | error e =>
        refine ⟨fun _ => ⟨e, by simp [runTool, errLabel, refresh_browser, hg, hr]⟩, fun hf _ => ?_,
          fun hb => ?_⟩
        · simp [toolFailed, hg, hr, exErr] at hf
        · simp [isBase64ScreenshotSuccess] at hb
      | ok v =>
        by_cases hwt : w > 0
        · cases hw : wt with
          | error e =>
            refine ⟨fun _ => ⟨e, by simp [runTool, errLabel, refresh_browser, hg, hr, hwt, hw]⟩,
              fun hf _ => ?_, fun hb => ?_⟩
            · simp [toolFailed, hg, hr, hwt, hw, exErr] at hf
            · simp [isBase64ScreenshotSuccess] at hb
          | ok v2 =>
            refine ⟨fun hf => ?_,
              fun _ _ => by simp [runTool, errLabel, refresh_browser, hg, hr, hwt, hw], fun hb => ?_⟩
            · simp [toolFailed, hg, hr, hwt, hw, exErr] at hf
            · simp [isBase64ScreenshotSuccess] at hb
        · refine ⟨fun hf => ?_, fun _ _ => by simp [runTool, errLabel, refresh_browser, hg, hr, hwt],
            fun hb => ?_⟩
          · simp [toolFailed, hg, hr, hwt, exErr] at hf
          · simp [isBase64ScreenshotSuccess] at hb
  | sleep m w =>
    cases hg : getPage st with
    | error e =>
      refine ⟨fun _ => ⟨e, by simp [runTool, errLabel, sleep, hg]⟩, fun hf _ => ?_, fun hb => ?_⟩
      · simp [toolFailed, hg, exErr] at hf
      · simp [isBase64ScreenshotSuccess] at hb
    | ok pg =>
      by_cases hm : m > 0
      · cases hw : w with
        | error e =>
          refine ⟨fun _ => ⟨e, by simp [runTool, errLabel, sleep, hg, hm, hw]⟩, fun hf _ => ?_,
            fun hb => ?_⟩
          · simp [toolFailed, hg, hm, hw, exErr] at hf
          · simp [isBase64ScreenshotSuccess] at hb
        | ok v =>
          refine ⟨fun hf => ?_, fun _ _ => by simp [runTool, errLabel, sleep, hg, hm, hw], fun hb => ?_⟩
          · simp [toolFailed, hg, hm, hw, exErr] at hf
          · simp [isBase64ScreenshotSuccess] at hb
      · refine ⟨fun hf => ?_, fun _ _ => by simp [runTool, errLabel, sleep, hg, hm], fun hb => ?_⟩
        · simp [toolFailed, hg, hm, exErr] at hf
        · simp [isBase64ScreenshotSuccess] at hb
  | find_element s t w =>
    cases hg : getPage st with
    | error e =>
      refine ⟨fun _ => ⟨e, by simp [runTool, errLabel, find_element, hg]⟩, fun hf _ => ?_, fun hb => ?_⟩
      · simp [toolFailed, hg, exErr] at hf
      · simp [isBase64ScreenshotSuccess] at hb
    | ok pg =>
      cases hr : w with
      | error e =>
        refine ⟨fun _ => ⟨e, by simp [runTool, errLabel, find_element, hg, hr]⟩, fun hf _ => ?_,
          fun hb => ?_⟩
        · simp [toolFailed, hg, hr, exErr] at hf
        · simp [isBase64ScreenshotSuccess] at hb
      | ok v =>
        refine ⟨fun hf => ?_, fun _ _ => by simp [runTool, errLabel, find_element, hg, hr], fun hb => ?_⟩
        · simp [toolFailed, hg, hr, exErr] at hf
        · simp [isBase64ScreenshotSuccess] at hb
  | click_element s t cl =>
    cases hg : getPage st with
    | error e =>
      refine ⟨fun _ => ⟨e, by simp [runTool, errLabel, click_element, hg]⟩, fun hf _ => ?_, fun hb => ?_⟩
      · simp [toolFailed, hg, exErr] at hf
      · simp [isBase64ScreenshotSuccess] at hb
    | ok pg =>
      cases hr : cl with
      | error e =>
        refine ⟨fun _ => ⟨e, by simp [runTool, errLabel, click_element, hg, hr]⟩, fun hf _ => ?_,
          fun hb => ?_⟩
        · simp [toolFailed, hg, hr, exErr] at hf
        · simp [isBase64ScreenshotSuccess] at hb
      | ok v =>
        refine ⟨fun hf => ?_, fun _ _ => by simp [runTool, errLabel, click_element, hg, hr],
          fun hb => ?_⟩
        · simp [toolFailed, hg, hr, exErr] at hf
        · simp [isBase64ScreenshotSuccess] at hb
  | send_keys s x t f =>
    cases hg : getPage st with
    | error e =>
      refine ⟨fun _ => ⟨e, by simp [runTool, errLabel, send_keys, hg]⟩, fun hf _ => ?_, fun hb => ?_⟩
      · simp [toolFailed, hg, exErr] at hf
      · simp [isBase64ScreenshotSuccess] at hb
    | ok pg =>
      cases hr : f with
      | error e =>
        refine ⟨fun _ => ⟨e, by simp [runTool, errLabel, send_keys, hg, hr]⟩, fun hf _ => ?_,
          fun hb => ?_⟩
        · simp [toolFailed, hg, hr, exErr] at hf
        · simp [isBase64ScreenshotSuccess] at hb
      | ok v =>
        refine ⟨fun hf => ?_, fun _ _ => by simp [runTool, errLabel, send_keys, hg, hr], fun hb => ?_⟩
        · simp [toolFailed, hg, hr, exErr] at hf
        · simp [isBase64ScreenshotSuccess] at hb
  | get_element_text s t r =>
    cases hg : getPage st with
    | error e =>
      refine ⟨fun _ => ⟨e, by simp [runTool, errLabel, get_element_text, hg]⟩, fun hf _ => ?_,
        fun hb => ?_⟩
      · simp [toolFailed, hg, exErr] at hf
      · simp [isBase64ScreenshotSuccess] at hb
    | ok pg =>
      cases hr : r with
      | error e =>
        refine ⟨fun _ => ⟨e, by simp [runTool, errLabel, get_element_text, hg, hr]⟩, fun hf _ => ?_,
          fun hb => ?_⟩
        · simp [toolFailed, hg, hr, exErr] at hf
        · simp [isBase64ScreenshotSuccess] at hb
      | ok v =>
        refine ⟨fun hf => ?_, fun _ _ => by simp [runTool, errLabel, get_element_text, hg, hr],
          fun hb => ?_⟩
        · simp [toolFailed, hg, hr, exErr] at hf
        · simp [isBase64ScreenshotSuccess] at hb
  | hover s t hv =>
    cases hg : getPage st with
    | error e =>
      refine ⟨fun _ => ⟨e, by simp [runTool, errLabel, hover, hg]⟩, fun hf _ => ?_, fun hb => ?_⟩
      · simp [toolFailed, hg, exErr] at hf
      · simp [isBase64ScreenshotSuccess] at hb
    | ok pg =>
      cases hr : hv with
      | error e =>
        refine ⟨fun _ => ⟨e, by simp [runTool, errLabel, hover, hg, hr]⟩, fun hf _ => ?_, fun hb => ?_⟩
        · simp [toolFailed, hg, hr, exErr] at hf
        · simp [isBase64ScreenshotSuccess] at hb
      | ok v =>
        refine ⟨fun hf => ?_, fun _ _ => by simp [runTool, errLabel, hover, hg, hr], fun hb => ?_⟩
        · simp [toolFailed, hg, hr, exErr] at hf
        · simp [isBase64ScreenshotSuccess] at hb
  | drag_and_drop s ts t d =>
    cases hg : getPage st with
    | error e =>
      refine ⟨fun _ => ⟨e, by simp [runTool, errLabel, drag_and_drop, hg]⟩, fun hf _ => ?_, fun hb => ?_⟩
      · simp [toolFailed, hg, exErr] at hf
      · simp [isBase64ScreenshotSuccess] at hb
    | ok pg =>
      cases hr : d with
      | error e =>
        refine ⟨fun _ => ⟨e, by simp [runTool, errLabel, drag_and_drop, hg, hr]⟩, fun hf _ => ?_,
          fun hb => ?_⟩
        · simp [toolFailed, hg, hr, exErr] at hf
        · simp [isBase64ScreenshotSuccess] at hb
      | ok v =>
        refine ⟨fun hf => ?_, fun _ _ => by simp [runTool, errLabel, drag_and_drop, hg, hr],
          fun hb => ?_⟩
        · simp [toolFailed, hg, hr, exErr] at hf
        · simp [isBase64ScreenshotSuccess] at hb
  | double_click s t d =>
    cases hg : getPage st with
    | error e =>
      refine ⟨fun _ => ⟨e, by simp [runTool, errLabel, double_click, hg]⟩, fun hf _ => ?_, fun hb => ?_⟩
      · simp [toolFailed, hg, exErr] at hf
      · simp [isBase64ScreenshotSuccess] at hb
    | ok pg =>
      cases hr : d with
      | error e =>
        refine ⟨fun _ => ⟨e, by simp [runTool, errLabel, double_click, hg, hr]⟩, fun hf _ => ?_,
          fun hb => ?_⟩
        · simp [toolFailed, hg, hr, exErr] at hf
        · simp [isBase64ScreenshotSuccess] at hb
      | ok v =>
        refine ⟨fun hf => ?_, fun _ _ => by simp [runTool, errLabel, double_click, hg, hr],
          fun hb => ?_⟩
        · simp [toolFailed, hg, hr, exErr] at hf
        · simp [isBase64ScreenshotSuccess] at hb
  | right_click s t r =>
    cases hg : getPage st with
    | error e =>
      refine ⟨fun _ => ⟨e, by simp [runTool, errLabel, right_click, hg]⟩, fun hf _ => ?_, fun hb => ?_⟩
      · simp [toolFailed, hg, exErr] at hf
      · simp [isBase64ScreenshotSuccess] at hb
    | ok pg =>
      cases hr : r with
      | error e =>
        refine ⟨fun _ => ⟨e, by simp [runTool, errLabel, right_click, hg, hr]⟩, fun hf _ => ?_,
          fun hb => ?_⟩
        · simp [toolFailed, hg, hr, exErr] at hf
        · simp [isBase64ScreenshotSuccess] at hb
      | ok v =>
        refine ⟨fun hf => ?_, fun _ _ => by simp [runTool, errLabel, right_click, hg, hr], fun hb => ?_⟩
        · simp [toolFailed, hg, hr, exErr] at hf
        · simp [isBase64ScreenshotSuccess] at hb
  | press_key k p =>
    cases hg : getPage st with
    | error e =>
      refine ⟨fun _ => ⟨e, by simp [runTool, errLabel, press_key, hg]⟩, fun hf _ => ?_, fun hb => ?_⟩
      · simp [toolFailed, hg, exErr] at hf
      · simp [isBase64ScreenshotSuccess] at hb
    | ok pg =>
      cases hr : p with
      | error e =>
        refine ⟨fun _ => ⟨e, by simp [runTool, errLabel, press_key, hg, hr]⟩, fun hf _ => ?_,
          fun hb => ?_⟩
        · simp [toolFailed, hg, hr, exErr] at hf
        · simp [isBase64ScreenshotSuccess] at hb
      | ok v =>
        refine ⟨fun hf => ?_, fun _ _ => by simp [runTool, errLabel, press_key, hg, hr], fun hb => ?_⟩
        · simp [toolFailed, hg, hr, exErr] at hf
        · simp [isBase64ScreenshotSuccess] at hb
  | upload_file s f t u =>
    cases hg : getPage st with
    | error e =>
      refine ⟨fun _ => ⟨e, by simp [runTool, errLabel, upload_file, hg]⟩, fun hf _ => ?_, fun hb => ?_⟩
      · simp [toolFailed, hg, exErr] at hf
      · simp [isBase64ScreenshotSuccess] at hb
    | ok pg =>
      cases hr : u with
      | error e =>
        refine ⟨fun _ => ⟨e, by simp [runTool, errLabel, upload_file, hg, hr]⟩, fun hf _ => ?_,
          fun hb => ?_⟩
        · simp [toolFailed, hg, hr, exErr] at hf
        · simp [isBase64ScreenshotSuccess] at hb
      | ok v =>
        refine ⟨fun hf => ?_, fun _ _ => by simp [runTool, errLabel, upload_file, hg, hr], fun hb => ?_⟩
        · simp [toolFailed, hg, hr, exErr] at hf
        · simp [isBase64ScreenshotSuccess] at hb
  | take_screenshot o f sh =>
    cases hg : getPage st with
    | error e =>
      refine ⟨fun _ => ⟨e, by simp [runTool, errLabel, take_screenshot, hg]⟩, fun hf _ => ?_,
        fun hb => ?_⟩
      · simp [toolFailed, hg, exErr] at hf
      · cases o <;> cases sh <;> simp [isBase64ScreenshotSuccess, hg] at hb
    | ok pg =>
      cases hsh : sh with
      | error e =>
        refine ⟨fun _ => ⟨e, by simp [runTool, errLabel, take_screenshot, hg, hsh]⟩, fun hf _ => ?_,
          fun hb => ?_⟩
        · simp [toolFailed, hg, hsh, exErr] at hf
        · cases o <;> simp [isBase64ScreenshotSuccess] at hb
      | ok bytes =>
        cases o with
        | some p =>
          refine ⟨fun hf => ?_, fun _ _ => by simp [runTool, errLabel, take_screenshot, hg, hsh],
            fun hb => ?_⟩
          · simp [toolFailed, hg, hsh, exErr] at hf
          · simp [isBase64ScreenshotSuccess] at hb
        | none =>
          refine ⟨fun hf => ?_, fun _ hb => ?_, fun _ => ⟨?_, bytes, ?_⟩⟩
          · simp [toolFailed, hg, hsh, exErr] at hf
          · simp [isBase64ScreenshotSuccess, hg] at hb
          · simp [toolFailed, hg, hsh, exErr]
          · simp [runTool, errLabel, take_screenshot, hg, hsh]
  | get_page_source d w e =>
    cases hg : getPage st with
    | error er =>
      refine ⟨fun _ => ⟨er, by simp [runTool, errLabel, get_page_source, hg]⟩, fun hf _ => ?_,
        fun hb => ?_⟩
      · simp [toolFailed, hg, exErr] at hf
      · simp [isBase64ScreenshotSuccess] at hb
    | ok pg =>
      by_cases hd : d > 0
      · cases hw : w with
        | error er =>
          refine ⟨fun _ => ⟨er, by simp [runTool, errLabel, get_page_source, hg, hd, hw]⟩,
            fun hf _ => ?_, fun hb => ?_⟩
          · simp [toolFailed, hg, hd, hw, exErr] at hf
          · simp [isBase64ScreenshotSuccess] at hb
        | ok v =>
          cases he : e with
          | error er =>
            refine ⟨fun _ => ⟨er, by simp [runTool, errLabel, get_page_source, hg, hd, hw, he]⟩,
              fun hf _ => ?_, fun hb => ?_⟩
            · simp [toolFailed, hg, hd, hw, he, exErr] at hf
            · simp [isBase64ScreenshotSuccess] at hb
          | ok bs =>
            refine ⟨fun hf => ?_,
              fun _ _ => by simp [runTool, errLabel, get_page_source, hg, hd, hw, he], fun hb => ?_⟩
            · simp [toolFailed, hg, hd, hw, he, exErr] at hf
            · simp [isBase64ScreenshotSuccess] at hb
      · cases he : e with
        | error er =>
          refine ⟨fun _ => ⟨er, by simp [runTool, errLabel, get_page_source, hg, hd, he]⟩,
            fun hf _ => ?_, fun hb => ?_⟩
          · simp [toolFailed, hg, hd, he, exErr] at hf
          · simp [isBase64ScreenshotSuccess] at hb
        | ok bs =>
          refine ⟨fun hf => ?_, fun _ _ => by simp [runTool, errLabel, get_page_source, hg, hd, he],
            fun hb => ?_⟩
          · simp [toolFailed, hg, hd, he, exErr] at hf
          · simp [isBase64ScreenshotSuccess] at hb
  | start_browser b o l ctx p n =>
    by_cases hk : (b == "chromium" || b == "firefox" || b == "webkit") = true
    · cases hl : l with
      | error e =>
        refine ⟨fun _ => ⟨e, by simp [runTool, errLabel, start_browser, hk, hl]⟩, fun hf _ => ?_,
          fun hb => ?_⟩
        · simp [toolFailed, hk, hl, exErr] at hf
        · simp [isBase64ScreenshotSuccess] at hb
      | ok bi =>
        cases hctx : ctx with
        | error e =>
          refine ⟨fun _ => ⟨e, by simp [runTool, errLabel, start_browser, hk, hl, hctx]⟩,
            fun hf _ => ?_, fun hb => ?_⟩
          · simp [toolFailed, hk, hl, hctx, exErr] at hf
          · simp [isBase64ScreenshotSuccess] at hb
        | ok cv =>
          cases hp : p with
          | error e =>
            refine ⟨fun _ => ⟨e, by simp [runTool, errLabel, start_browser, hk, hl, hctx, hp]⟩,
              fun hf _ => ?_, fun hb => ?_⟩
            · simp [toolFailed, hk, hl, hctx, hp, exErr] at hf
            · simp [isBase64ScreenshotSuccess] at hb
          | ok pv =>
            refine ⟨fun hf => ?_,
              fun _ _ => by simp [runTool, errLabel, start_browser, hk, hl, hctx, hp], fun hb => ?_⟩
            · simp [toolFailed, hk, hl, hctx, hp, exErr] at hf
            · simp [isBase64ScreenshotSuccess] at hb
    · refine ⟨fun _ => ⟨"Unsupported browser: " ++ b, ?_⟩, fun hf _ => ?_, fun hb => ?_⟩
      · show (start_browser st b o l ctx p n).envelope = _
        unfold start_browser
        rw [if_neg hk]
        rfl
      · simp [toolFailed, hk] at hf
      · simp [isBase64ScreenshotSuccess] at hb
  | close_session =>
    cases hB : mapGet st.browsers st.currentSession with
    | none =>
      refine ⟨fun hf => ?_, fun _ _ => by simp [runTool, errLabel, close_session, closeFinish, hB],
        fun hb => ?_⟩
      · simp [toolFailed, hB] at hf
      · simp [isBase64ScreenshotSuccess] at hb
    | some br =>
      cases hc : br.closeErr with
      | some e =>
        refine ⟨fun _ => ⟨e, by simp [runTool, errLabel, close_session, hB, hc]⟩, fun hf _ => ?_,
          fun hb => ?_⟩
        · simp [toolFailed, hB, hc] at hf
        · simp [isBase64ScreenshotSuccess] at hb
      | none =>
        refine ⟨fun hf => ?_, fun _ _ => by simp [runTool, errLabel, close_session, closeFinish, hB, hc],
          fun hb => ?_⟩
        · simp [toolFailed, hB, hc] at hf
        · simp [isBase64ScreenshotSuccess] at hb

/-- Witness for C3 (amended): with the pointer empty, `navigate` fails with a
one-block `Error navigating: ...` envelope; a successful `take_screenshot`
without `outputPath` against the demo active state yields the two-block
base64 envelope. -/
theorem C3_witness :
    (∃ m, (runTool initialState
        (ToolCall.navigate "https://example.com" "load" (Except.ok ()))).envelope =
      ⟨[textBlock (errLabel
        (ToolCall.navigate "https://example.com" "load" (Except.ok ())) ++ m)]⟩) ∧
    (∃ bytes, (runTool stActive
        (ToolCall.take_screenshot none false (Except.ok [1, 2, 3]))).envelope =
      ⟨[textBlock "Screenshot captured as base64:", textBlock (toBase64 bytes)]⟩) :=
  ⟨(C3_envelope_shape initialState
      (ToolCall.navigate "https://example.com" "load" (Except.ok ()))).1 (by decide),
   ((C3_envelope_shape stActive
      (ToolCall.take_screenshot none false (Except.ok [1, 2, 3]))).2.2 (by decide)).2⟩

/-- Second demo browser handle, distinct from `demoBrowser`. -/
def demoBrowser2 : Browser :=
  { handle := 1, closeErr := none }

/-- Formalization of the C5 claim: `start_browser` checks the generated id and,
when it is already registered, reports a failure envelope and does not touch
the registry. -/
def duplicateIdRejected : Prop :=
  ∀ (st : ServerState) (browser : String) (options : Option BrowserOptions)
    (launch : Except String Browser) (newContext newPage : Except String Nat) (now : Nat),
    keyMem st.browsers (browser ++ "_" ++ toString now) = true →
    isErrorEnvelope (runTool st (ToolCall.start_browser browser options launch
      newContext newPage now)).envelope = true ∧
    (runTool st (ToolCall.start_browser browser options launch
      newContext newPage now)).state = st

/-- Counterexample for C5: with `chromium_1` already registered, a
`start_browser` generating the same id succeeds and overwrites. -/
theorem C5_counterexample : ¬ duplicateIdRejected := by
  intro h
  have h0 := h stActive "chromium" none (Except.ok demoBrowser2) (Except.ok 1) (Except.ok 1) 1
    (by decide)
  revert h0
  decide

/-- Claim C5 (amended): `start_browser` performs no duplicate-id check: with
successful driver outcomes it registers under the generated id and reports
success even when that id is already present, overwriting the existing
registry entry rather than failing. -/
theorem C5_no_duplicate_check (st : ServerState) (browser : String)
    (options : Option BrowserOptions) (b : Browser) (context page : Nat) (now : Nat)
    (hkind : browser = "chromium" ∨ browser = "firefox" ∨ browser = "webkit")
    (_hdup : keyMem st.browsers (browser ++ "_" ++ toString now) = true) :
    (runTool st (ToolCall.start_browser browser options (Except.ok b) (Except.ok context)
      (Except.ok page) now)).envelope =
      ⟨[textBlock ("Browser started with session_id: " ++ (browser ++ "_" ++ toString now))]⟩ ∧
    mapGet (runTool st (ToolCall.start_browser browser options (Except.ok b) (Except.ok context)
      (Except.ok page) now)).state.browsers (some (browser ++ "_" ++ toString now)) = some b ∧
    (runTool st (ToolCall.start_browser browser options (Except.ok b) (Except.ok context)
      (Except.ok page) now)).state.currentSession = some (browser ++ "_" ++ toString now) ∧
    isErrorEnvelope (runTool st (ToolCall.start_browser browser options (Except.ok b)
      (Except.ok context) (Except.ok page) now)).envelope = false := by
  have hb : (browser == "chromium" || browser == "firefox" || browser == "webkit") = true := by
    rcases hkind with h | h | h <;> simp [h]
  have hrun : runTool st (ToolCall.start_browser browser options (Except.ok b)
      (Except.ok context) (Except.ok page) now) =
      { envelope := ⟨[textBlock ("Browser started with session_id: "
          ++ (browser ++ "_" ++ toString now))]⟩
        state :=
          { browsers := mapSet st.browsers (browser ++ "_" ++ toString now) b
            contexts := mapSet st.contexts (browser ++ "_" ++ toString now) context
            pages := mapSet st.pages (browser ++ "_" ++ toString now) page
            currentSession := some (browser ++ "_" ++ toString now) }
        ops := [DriverOp.launch browser (makeLaunchOptions options),
          DriverOp.newContext (makeContextOptions options), DriverOp.newPage] } := by
    show start_browser st browser options (Except.ok b) (Except.ok context)
      (Except.ok page) now = _
    unfold start_browser
    rw [if_pos hb]
  rw [hrun]
  refine ⟨rfl, mapGet_mapSet _ _ _, rfl, rfl⟩

/-- Witness for C5 (amended) at the demo duplicate input. -/
theorem C5_witness :
    (runTool stActive (ToolCall.start_browser "chromium" none (Except.ok demoBrowser2)
      (Except.ok 1) (Except.ok 1) 1)).envelope =
      ⟨[textBlock ("Browser started with session_id: "
        ++ ("chromium" ++ "_" ++ toString 1))]⟩ ∧
    mapGet (runTool stActive (ToolCall.start_browser "chromium" none (Except.ok demoBrowser2)
      (Except.ok 1) (Except.ok 1) 1)).state.browsers
      (some ("chromium" ++ "_" ++ toString 1)) = some demoBrowser2 ∧
    (runTool stActive (ToolCall.start_browser "chromium" none (Except.ok demoBrowser2)
      (Except.ok 1) (Except.ok 1) 1)).state.currentSession =
      some ("chromium" ++ "_" ++ toString 1) ∧
    isErrorEnvelope (runTool stActive (ToolCall.start_browser "chromium" none
      (Except.ok demoBrowser2) (Except.ok 1) (Except.ok 1) 1)).envelope = false :=
  C5_no_duplicate_check stActive "chromium" none demoBrowser2 1 1 1 (Or.inl rfl) (by decide)

/-- Claim C6: on a termination signal, the cleanup attempts to close the
browser of every registered session (even when some closes fail, which are
logged), then clears the whole registry and the pointer unconditionally and
exits with status 0. -/
theorem C6_cleanup_best_effort (st : ServerState) :
    (cleanup st).ops = st.browsers.map (fun p => DriverOp.browserClose p.1) ∧
    (cleanup st).logged
      = (st.browsers.filter (fun p => p.2.closeErr.isSome)).map (fun p => p.1) ∧
    (cleanup st).finalState = initialState ∧
    (cleanup st).exitCode = 0 :=
  ⟨(closeAllBrowsers_spec st.browsers).1, (closeAllBrowsers_spec st.browsers).2, rfl, rfl⟩

/-- Claim C7: `take_screenshot` passes `outputPath` through to the driver and,
when it is supplied, reports the path in a one-block success envelope;
without it, the bytes are base64-encoded into the response; the requested
format is JPEG exactly when a supplied path ends in `.jpg`, PNG otherwise. -/
theorem C7_take_screenshot_format (st : ServerState) (outputPath : Option String)
    (fullPage : Bool) (bytes : List Nat) (pg : Nat) (hp : getPage st = Except.ok pg) :
    (take_screenshot st outputPath fullPage (Except.ok bytes)).ops =
      [DriverOp.screenshot (mkScreenshotOptions outputPath fullPage)] ∧
    (∀ p, outputPath = some p →
      (take_screenshot st outputPath fullPage (Except.ok bytes)).envelope =
        ⟨[textBlock ("Screenshot saved to " ++ p)]⟩ ∧
      (mkScreenshotOptions outputPath fullPage).path = some p) ∧
    (outputPath = none →
      (take_screenshot st outputPath fullPage (Except.ok bytes)).envelope =
        ⟨[textBlock "Screenshot captured as base64:", textBlock (toBase64 bytes)]⟩) ∧
    ((mkScreenshotOptions outputPath fullPage).format = "jpeg" ↔
      ∃ p, outputPath = some p ∧ p.endsWith ".jpg" = true) := by
  refine ⟨?_, ?_, ?_, ?_⟩
  · cases outputPath <;> simp [take_screenshot, hp]
  · intro p hpath
    subst hpath
    exact ⟨by simp [take_screenshot, hp], rfl⟩
  · intro hpath
    subst hpath
    simp [take_screenshot, hp]
  · cases outputPath with
    | none => simp [mkScreenshotOptions]
    | some p =>
      by_cases he : p.endsWith ".jpg" = true
      · simp [mkScreenshotOptions, he]
      · simp only [Bool.not_eq_true] at he
        simp [mkScreenshotOptions, he]

/-- Witness for C7 at a concrete `.jpg` path. -/
theorem C7_witness :
    (take_screenshot stActive (some "shot.jpg") false (Except.ok [137, 80])).ops =
      [DriverOp.screenshot (mkScreenshotOptions (some "shot.jpg") false)] ∧
    (∀ p, (some "shot.jpg" : Option String) = some p →
      (take_screenshot stActive (some "shot.jpg") false (Except.ok [137, 80])).envelope =
        ⟨[textBlock ("Screenshot saved to " ++ p)]⟩ ∧
      (mkScreenshotOptions (some "shot.jpg") false).path = some p) ∧
    ((some "shot.jpg" : Option String) = none →
      (take_screenshot stActive (some "shot.jpg") false (Except.ok [137, 80])).envelope =
        ⟨[textBlock "Screenshot captured as base64:", textBlock (toBase64 [137, 80])]⟩) ∧
    ((mkScreenshotOptions (some "shot.jpg") false).format = "jpeg" ↔
      ∃ p, (some "shot.jpg" : Option String) = some p ∧ p.endsWith ".jpg" = true) :=
  C7_take_screenshot_format stActive (some "shot.jpg") false [137, 80] 0 (by decide)

/-- Lemma: `start_browser` depends on `options` only through the launch and
context option computations. -/
lemma start_browser_options_congr (st : ServerState) (b : String)
    (o1 o2 : Option BrowserOptions)
    (hl : makeLaunchOptions o1 = makeLaunchOptions o2)
    (hc : makeContextOptions o1 = makeContextOptions o2)
    (l : Except String Browser) (ctx p : Except String Nat) (n : Nat) :
    start_browser st b o1 l ctx p n = start_browser st b o2 l ctx p n := by
  simp only [start_browser, hl, hc]

/-- Claim C8: `start_browser` with `options` omitted, `null`, or `{}` produces
the same launch configuration (headless = false, no launch args, no channel)
and the same context configuration (no viewport, no userAgent), and the
handler behaves identically in the three cases. -/
theorem C8_empty_options_equivalent :
    makeLaunchOptions (parseOptions OptionsInput.omitted) =
      { headless := false, args := [], channel := none } ∧
    makeLaunchOptions (parseOptions OptionsInput.null) =
      { headless := false, args := [], channel := none } ∧
    makeLaunchOptions (parseOptions (OptionsInput.obj {})) =
      { headless := false, args := [], channel := none } ∧
    makeContextOptions (parseOptions OptionsInput.omitted) =
      { viewport := none, userAgent := none } ∧
    makeContextOptions (parseOptions OptionsInput.null) =
      { viewport := none, userAgent := none } ∧
    makeContextOptions (parseOptions (OptionsInput.obj {})) =
      { viewport := none, userAgent := none } ∧
    (∀ (st : ServerState) (browser : String) (launch : Except String Browser)
      (newContext newPage : Except String Nat) (now : Nat),
      runTool st (ToolCall.start_browser browser (parseOptions OptionsInput.omitted) launch
        newContext newPage now) =
      runTool st (ToolCall.start_browser browser (parseOptions OptionsInput.null) launch
        newContext newPage now) ∧
      runTool st (ToolCall.start_browser browser (parseOptions OptionsInput.null) launch
        newContext newPage now) =
      runTool st (ToolCall.start_browser browser (parseOptions (OptionsInput.obj {})) launch
        newContext newPage now)) := by
  refine ⟨rfl, rfl, rfl, rfl, rfl, rfl, ?_⟩
  intro st browser launch newContext newPage now
  constructor
  · exact start_browser_options_congr st browser _ _ rfl rfl launch newContext newPage now
  · exact start_browser_options_congr st browser _ _ rfl rfl launch newContext newPage now

/-- Steps performed by the `start_browser` or `close_session` handlers. -/
def isStartOrCloseStep : Step → Bool
  | Step.call (ToolCall.start_browser ..) => true
  | Step.call ToolCall.close_session => true
  | _ => false

/-- Formalization of the C9 claim: no component other than the start-session
and close-session handlers ever assigns to the active session pointer. -/
def pointerMutatedOnlyByStartAndClose : Prop :=
  ∀ (st : ServerState) (s : Step), isStartOrCloseStep s = false →
    (nextState st s).currentSession = st.currentSession

/-- Counterexample for C9: the shutdown `cleanup` (a signal step, neither the
start nor the close handler) assigns `null` to a non-empty pointer. -/
theorem C9_counterexample : ¬ pointerMutatedOnlyByStartAndClose := by
  intro h
  have h0 := h stActive Step.signal rfl
  revert h0
  decide

/-- Claim C9 (amended): the pointer is assigned only by the `start_browser`
handler, the `close_session` handler, and the shutdown `cleanup` (which
clears it); no page tool ever changes it. -/
theorem C9_pointer_writers (st : ServerState) (c : ToolCall) (h : requiresPage c = true) :
    (runTool st c).state.currentSession = st.currentSession ∧
    (nextState st Step.signal).currentSession = none :=
  ⟨by rw [runTool_page_state st c h], rfl⟩

/-- Witness for C9 (amended) at a page tool and the demo active state. -/
theorem C9_witness :
    (runTool stActive (ToolCall.navigate "https://example.com" "load"
      (Except.ok ()))).state.currentSession = stActive.currentSession ∧
    (nextState stActive Step.signal).currentSession = none :=
  C9_pointer_writers stActive
    (ToolCall.navigate "https://example.com" "load" (Except.ok ())) rfl

/-- Claim C10: when the driver's `textContent` resolves to `null`, the
`get_element_text` handler returns a success envelope whose single text block
is the empty string — never the string `"null"` and never a failure. -/
theorem C10_null_text_empty (st : ServerState) (selector : String) (timeout : Int)
    (pg : Nat) (hp : getPage st = Except.ok pg) :
    runTool st (ToolCall.get_element_text selector timeout (Except.ok none)) =
      { envelope := ⟨[textBlock ""]⟩
        state := st
        ops := [DriverOp.textContent selector timeout] } := by
  simp [runTool, get_element_text, hp, jsOrEmpty]

/-- Witness for C10 at the demo active state. -/
theorem C10_witness :
    runTool stActive (ToolCall.get_element_text ".msg" 10000 (Except.ok none)) =
      { envelope := ⟨[textBlock ""]⟩
        state := stActive
        ops := [DriverOp.textContent ".msg" 10000] } :=
  C10_null_text_empty stActive ".msg" 10000 0 (by decide)

end MCPSelenium
